import Mathlib

/-!
# Verification of the fall-detection pipeline

Shallow embedding of the core components of the fall-detection repository:

* `fall_detector.py` — `FallDetector._detect_fall`, `FallDetector.predict`,
  `FallDetector.reset` (pose-metric fall classifier with calibration and a
  cooldown gate);
* `clip_saver.py` — `ClipSaver.add_frame`, `ClipSaver.trigger_save`,
  `ClipSaver._finalize_clip` (pre-roll ring buffer and post-trigger recording);
* `mqtt_client.py` / `aws_iot_client.py` — construction of the published
  fall-event JSON messages;
* `mqtt_video_receiver.py` / `run_camera_ec2.py` — the `is_receiving`
  liveness checks of the two frame sources.

Python floats are modelled as rationals (`ℚ`); wall-clock times
(`time.time()`) are passed to the embedded functions as explicit `ℚ`
parameters.  Fallible pose estimation is an `Option` input.  All embedded
functions are total, which models the "never raises" contracts.
-/

namespace FallDetection

/-- One entry of a bounded `deque(maxlen := cap)`: appending to a full deque
evicts the oldest element.  The list is kept oldest-first. -/
def pushBounded (cap : ℕ) (xs : List α) (x : α) : List α :=
  let ys := xs ++ [x]
  ys.drop (ys.length - cap)

/-- The metrics dictionary built by `FallDetector._calculate_body_metrics`.
The trigonometric derivation of `body_angle` (numpy `arctan2`/`degrees`) is
kept abstract: the classifier only ever compares the resulting number, in
degrees, against thresholds. All coordinates are normalised to `[0,1]` with
`y` growing downwards, as in MediaPipe. -/
structure BodyMetrics where
  head_y : ℚ
  hip_y : ℚ
  shoulder_y : ℚ
  torso_height : ℚ
  head_to_hip : ℚ
  body_angle : ℚ
  aspect_ratio : ℚ
  center_x : ℚ
  center_y : ℚ
  visibility : ℚ
deriving Repr, DecidableEq

/-- One element of `FallDetector.position_history`: the wall-clock time and
the metrics recorded for one frame. -/
structure HistEntry where
  time : ℚ
  metrics : BodyMetrics
deriving Repr, DecidableEq

/-- The mutable state of a `FallDetector` instance (`fall_detector.py`,
`__init__`).  `velocity_history` is omitted: the source only ever clears it,
never reads it. -/
structure DetectorState where
  confidenceThreshold : ℚ
  positionHistory : List HistEntry
  lastFallTime : ℚ
  fallCooldown : ℚ
  standingHeightRatio : Option ℚ
  calibrationFrames : ℕ
  calibrationNeeded : ℕ
deriving Repr, DecidableEq

namespace FallDetector

/-- `FallDetector.__init__(confidence_threshold)`. -/
def init (threshold : ℚ) : DetectorState :=
  { confidenceThreshold := threshold
    positionHistory := []
    lastFallTime := 0
    fallCooldown := 5
    standingHeightRatio := none
    calibrationFrames := 0
    calibrationNeeded := 30 }

/-- Indicator 1 of `_detect_fall`: `if self.standing_height_ratio:` (Python
truthiness: `None` and `0.0` are falsy) and then
`current / standing < 0.5`. -/
def ratioCollapse (s : DetectorState) (m : BodyMetrics) : Bool :=
  match s.standingHeightRatio with
  | none => false
  | some r => decide (¬ r = 0) && decide (m.aspect_ratio / r < 1/2)

/-- Indicator 3 of `_detect_fall`: with at least 5 history entries, the
vertical-centre displacement over the last 5 samples divided by their time
span exceeds `0.5` (and the time span is positive). -/
def downwardVelocity (hist : List HistEntry) : Bool :=
  if 5 ≤ hist.length then
    let recent := hist.drop (hist.length - 5)
    match recent with
    | [] => false
    | first :: _ =>
      match recent.getLast? with
      | none => false
      | some last =>
        let timeSpan := last.time - first.time
        decide (0 < timeSpan) &&
          decide (1/2 < (last.metrics.center_y - first.metrics.center_y) / timeSpan)
  else false

/-- The list `fall_indicators` assembled by `FallDetector._detect_fall`:
each independently satisfied indicator appends its weight. -/
def fallIndicators (s : DetectorState) (m : BodyMetrics) : List ℚ :=
  (if ratioCollapse s m then [(2/5 : ℚ)] else []) ++
  (if m.aspect_ratio < 4/5 then [(3/10 : ℚ)] else []) ++
  (if m.body_angle < 45 then [(3/10 : ℚ)] else []) ++
  (if downwardVelocity s.positionHistory then [(2/5 : ℚ)] else []) ++
  (if 3/5 < m.head_y then [(1/5 : ℚ)] else [])

/-- `FallDetector._detect_fall`: if any indicator fired, the confidence is
the indicator sum capped at 1 and `is_fall` compares it to the threshold;
otherwise `(False, 0.0)`. -/
def detectFall (s : DetectorState) (m : BodyMetrics) : Bool × ℚ :=
  let ind := fallIndicators s m
  if ind = [] then (false, 0)
  else
    let confidence := min ind.sum 1
    (decide (s.confidenceThreshold ≤ confidence), confidence)

/-- The history push performed by `predict` before calibration/detection:
`self.position_history.append({time, metrics})` on a `deque(maxlen=30)`. -/
def pushState (s : DetectorState) (t : ℚ) (m : BodyMetrics) : DetectorState :=
  { s with positionHistory := pushBounded 30 s.positionHistory ⟨t, m⟩ }

/-- `FallDetector.predict`, at the granularity of one processed frame.

The input is the outcome of pose estimation plus metric extraction for the
frame: `none` models both `results.pose_landmarks` being `None` ("no person
detected") and `_calculate_body_metrics` returning `None`; `t` is the value
of `time.time()` during the call.  Returns the surfaced
`(is_fall, confidence)` pair and the updated detector state.  Drawing on the
annotated frame is pure output and is not modelled. -/
def predict (s : DetectorState) (t : ℚ) (pose : Option BodyMetrics) :
    (Bool × ℚ) × DetectorState :=
  match pose with
  | none => ((false, 0), s)
  | some m =>
    if 1/2 < m.visibility then
      let s1 := pushState s t m
      if s1.calibrationFrames < s1.calibrationNeeded then
        let newRatio : ℚ :=
          match s1.standingHeightRatio with
          | none => m.aspect_ratio
          | some r => 9/10 * r + 1/10 * m.aspect_ratio
        let s2 :=
          if 6/5 < m.aspect_ratio then
            { s1 with standingHeightRatio := some newRatio }
          else s1
        ((false, 0), { s2 with calibrationFrames := s2.calibrationFrames + 1 })
      else
        let fc := detectFall s1 m
        if fc.1 && decide (t - s1.lastFallTime < s1.fallCooldown) then
          ((false, 0), s1)
        else if fc.1 then
          ((true, fc.2), { s1 with lastFallTime := t })
        else
          ((false, fc.2), s1)
    else ((false, 0), s)

/-- `FallDetector.reset`: clears history and calibration; `last_fall_time`
and `fall_cooldown` are untouched. -/
def reset (s : DetectorState) : DetectorState :=
  { s with positionHistory := []
           calibrationFrames := 0
           standingHeightRatio := none }

/-- Run `predict` over a list of timestamped frames, collecting for each
frame its time and the surfaced output. -/
def run (s : DetectorState) : List (ℚ × Option BodyMetrics) →
    DetectorState × List (ℚ × Bool × ℚ)
  | [] => (s, [])
  | (t, p) :: rest =>
    let r := predict s t p
    let tail := run r.2 rest
    (tail.1, (t, r.1) :: tail.2)

/-- The times of the frames whose surfaced classification was an accepted
fall (`is_fall = True` after the cooldown gate). -/
def acceptedTimes (s : DetectorState) (tr : List (ℚ × Option BodyMetrics)) :
    List ℚ :=
  (((run s tr).2).filter (fun e => e.2.1)).map (·.1)

end FallDetector

/-- Scenario state for the C1 witness: calibrated, standing ratio 2,
threshold 0.7 (the default). -/
def sC1 : DetectorState :=
  { confidenceThreshold := 7/10
    positionHistory := []
    lastFallTime := 0
    fallCooldown := 5
    standingHeightRatio := some 2
    calibrationFrames := 30
    calibrationNeeded := 30 }

/-- Scenario metrics for the C1 witness: ratio collapse fires
(0.9 / 2 < 0.5) but the absolute aspect-ratio check does not (0.9 ≥ 0.8),
the tilt check fires (30° < 45°), and nothing else. -/
def mC1 : BodyMetrics :=
  { head_y := 1/2
    hip_y := 1/2
    shoulder_y := 2/5
    torso_height := 1/10
    head_to_hip := 1/10
    body_angle := 30
    aspect_ratio := 9/10
    center_x := 1/2
    center_y := 1/2
    visibility := 1 }

/-- C1: after calibration the classification of `_detect_fall` is additive:
the confidence is the sum of the weights of all independently satisfied
indicators capped at 1, `is_fall` holds iff that capped sum reaches the
confidence threshold, and a frame satisfying zero indicators yields
`(False, 0.0)`.  (The cooldown gate that can overwrite the surfaced value is
the object of C2.) -/
theorem detect_fall_additive (s : DetectorState) (m : BodyMetrics)
    (hθ : 0 < s.confidenceThreshold) :
    (FallDetector.detectFall s m).2 = min (FallDetector.fallIndicators s m).sum 1 ∧
    ((FallDetector.detectFall s m).1 = true ↔
      s.confidenceThreshold ≤ min (FallDetector.fallIndicators s m).sum 1) ∧
    (FallDetector.fallIndicators s m = [] → FallDetector.detectFall s m = (false, 0)) := by
  unfold FallDetector.detectFall
  by_cases h : FallDetector.fallIndicators s m = []
  · simp [h]
    exact hθ
  · simp [h]

/-- Witness for C1, realising the scenario from the spec: exactly the
ratio-collapse (+0.4) and tilt (+0.3) indicators fire, the confidence is
0.7, and at the default threshold 0.7 the frame is classified as a fall. -/
theorem detect_fall_additive_witness :
    (0 : ℚ) < sC1.confidenceThreshold ∧
    FallDetector.fallIndicators sC1 mC1 = [2/5, 3/10] ∧
    FallDetector.detectFall sC1 mC1 = (true, 7/10) ∧
    ((FallDetector.detectFall sC1 mC1).1 = true ↔
      sC1.confidenceThreshold ≤ min (FallDetector.fallIndicators sC1 mC1).sum 1) := by
  have hind : FallDetector.fallIndicators sC1 mC1 = [2/5, 3/10] := by
    norm_num [FallDetector.fallIndicators, FallDetector.ratioCollapse,
      FallDetector.downwardVelocity, sC1, mC1]
  refine ⟨by norm_num [sC1], hind, ?_,
    (detect_fall_additive sC1 mC1 (by norm_num [sC1])).2.1⟩
  rw [FallDetector.detectFall, hind, if_neg (by simp)]
  norm_num [sC1]

/-- Metrics for the C3 witness: a snapshot whose mean core-point visibility
(1/4) is below the 0.5 threshold. -/
def mC3 : BodyMetrics :=
  { head_y := 1/2
    hip_y := 1/2
    shoulder_y := 2/5
    torso_height := 1/10
    head_to_hip := 1/10
    body_angle := 30
    aspect_ratio := 9/10
    center_x := 1/2
    center_y := 1/2
    visibility := 1/4 }

/-- C3: a frame with no detectable subject (`pose_landmarks` is `None`, or
metric extraction fails), or whose mean core-point visibility is below the
0.5 threshold, makes `predict` return `(False, 0.0)` with the detector state
— position history and calibration counter included — unchanged.  `predict`
is a total function, which models the "never raises" part of the
contract. -/
theorem predict_missing_subject (s : DetectorState) (t : ℚ) :
    FallDetector.predict s t none = ((false, 0), s) ∧
    ∀ m : BodyMetrics, m.visibility < 1/2 →
      FallDetector.predict s t (some m) = ((false, 0), s) := by
  refine ⟨rfl, fun m hm => ?_⟩
  have hv : ¬ ((1:ℚ)/2 < m.visibility) := not_lt.mpr hm.le
  simp only [FallDetector.predict]
  rw [if_neg hv]

/-- Witness for C3 at a concrete low-visibility snapshot and at a concrete
subject-free frame. -/
theorem predict_missing_subject_witness :
    mC3.visibility < 1/2 ∧
    FallDetector.predict (FallDetector.init (7/10)) 0 (some mC3) =
      ((false, 0), FallDetector.init (7/10)) ∧
    FallDetector.predict (FallDetector.init (7/10)) 0 none =
      ((false, 0), FallDetector.init (7/10)) :=
  ⟨by norm_num [mC3],
   (predict_missing_subject (FallDetector.init (7/10)) 0).2 mC3 (by norm_num [mC3]),
   (predict_missing_subject (FallDetector.init (7/10)) 0).1⟩

/-- Calibrated state for the C7 counterexample, with no standing-ratio
estimate and empty history so that no other indicator can fire. -/
def sC7 : DetectorState :=
  { confidenceThreshold := 7/10
    positionHistory := []
    lastFallTime := 0
    fallCooldown := 5
    standingHeightRatio := none
    calibrationFrames := 30
    calibrationNeeded := 30 }

/-- Metrics for the C7 counterexample: the body's vertical centre (0.7) is
in the lower 40% of the frame, but the head (nose, `head_y = 0.3`) is not;
aspect ratio 1 and tilt 90° keep every other indicator off. -/
def mC7 : BodyMetrics :=
  { head_y := 3/10
    hip_y := 4/5
    shoulder_y := 3/5
    torso_height := 1/5
    head_to_hip := 1/2
    body_angle := 90
    aspect_ratio := 1
    center_x := 1/2
    center_y := 7/10
    visibility := 1 }

/-- C7 counterexample: a frame whose normalized vertical centre (0.7) lies
in the lower 40% of the frame yet receives no +0.2 contribution — the
classification is `(False, 0.0)`, not confidence 0.2 — because the source
tests `head_y` (the nose), not the vertical centre
(`fall_detector.py`, line 224). -/
theorem lower_position_counterexample :
    3/5 < mC7.center_y ∧ FallDetector.detectFall sC7 mC7 = (false, 0) := by
  have hind : FallDetector.fallIndicators sC7 mC7 = [] := by
    norm_num [FallDetector.fallIndicators, FallDetector.ratioCollapse,
      FallDetector.downwardVelocity, sC7, mC7]
  exact ⟨by norm_num [mC7], by rw [FallDetector.detectFall, hind, if_pos rfl]⟩

/-- C7 amended: the +0.2 lower-frame indicator fires exactly when the
head (nose) vertical position lies in the lower 40% of the frame
(`head_y > 0.6`); the vertical centre of the body plays no role in it. -/
theorem lower_position_uses_head (s : DetectorState) (m : BodyMetrics) :
    (1/5 : ℚ) ∈ FallDetector.fallIndicators s m ↔ 3/5 < m.head_y := by
  unfold FallDetector.fallIndicators
  split_ifs <;> simp_all <;> try norm_num
  all_goals assumption

namespace FallDetector

@[simp] theorem pushState_confidenceThreshold (s : DetectorState) (t : ℚ)
    (m : BodyMetrics) :
    (pushState s t m).confidenceThreshold = s.confidenceThreshold := rfl

@[simp] theorem pushState_lastFallTime (s : DetectorState) (t : ℚ)
    (m : BodyMetrics) : (pushState s t m).lastFallTime = s.lastFallTime := rfl

@[simp] theorem pushState_fallCooldown (s : DetectorState) (t : ℚ)
    (m : BodyMetrics) : (pushState s t m).fallCooldown = s.fallCooldown := rfl

@[simp] theorem pushState_standingHeightRatio (s : DetectorState) (t : ℚ)
    (m : BodyMetrics) :
    (pushState s t m).standingHeightRatio = s.standingHeightRatio := rfl

@[simp] theorem pushState_calibrationFrames (s : DetectorState) (t : ℚ)
    (m : BodyMetrics) :
    (pushState s t m).calibrationFrames = s.calibrationFrames := rfl

@[simp] theorem pushState_calibrationNeeded (s : DetectorState) (t : ℚ)
    (m : BodyMetrics) :
    (pushState s t m).calibrationNeeded = s.calibrationNeeded := rfl

/-- `predict` never changes the cooldown length. -/
theorem predict_fallCooldown (s : DetectorState) (t : ℚ)
    (p : Option BodyMetrics) :
    ((predict s t p).2).fallCooldown = s.fallCooldown := by
  cases p with
  | none => rfl
  | some m =>
    simp only [predict]
    split_ifs <;> rfl

/-- An accepted positive can only happen at least one cooldown after the
previous one, and it resets the cooldown timer to the acceptance time. -/
theorem predict_accept (s : DetectorState) (t : ℚ) (p : Option BodyMetrics)
    (h : ((predict s t p).1).1 = true) :
    s.fallCooldown ≤ t - s.lastFallTime ∧
    ((predict s t p).2).lastFallTime = t := by
  cases p with
  | none => simp [predict] at h
  | some m =>
    simp only [predict] at h ⊢
    split_ifs at h ⊢ with hv hcal hsup hfall
    rw [Bool.and_eq_true, decide_eq_true_iff] at hsup
    push_neg at hsup
    exact ⟨by simpa using hsup hfall, rfl⟩

/-- If the surfaced classification of a frame is not an accepted fall, the
cooldown timer is unchanged. -/
theorem predict_not_accept (s : DetectorState) (t : ℚ)
    (p : Option BodyMetrics) (h : ((predict s t p).1).1 = false) :
    ((predict s t p).2).lastFallTime = s.lastFallTime := by
  cases p with
  | none => rfl
  | some m =>
    simp only [predict] at h ⊢
    split_ifs at h ⊢ <;> rfl

/-- With a nonnegative cooldown, the cooldown timer never moves
backwards. -/
theorem predict_lastFallTime_mono (s : DetectorState) (t : ℚ)
    (p : Option BodyMetrics) (hc : 0 ≤ s.fallCooldown) :
    s.lastFallTime ≤ ((predict s t p).2).lastFallTime := by
  by_cases h : ((predict s t p).1).1 = true
  · obtain ⟨h1, h2⟩ := predict_accept s t p h
    rw [h2]
    linarith
  · rw [predict_not_accept s t p (by simpa using h)]

@[simp] theorem acceptedTimes_nil (s : DetectorState) :
    acceptedTimes s [] = [] := rfl

theorem acceptedTimes_cons (s : DetectorState) (t : ℚ)
    (p : Option BodyMetrics) (tr : List (ℚ × Option BodyMetrics)) :
    acceptedTimes s ((t, p) :: tr) =
      (if ((predict s t p).1).1 = true
       then t :: acceptedTimes ((predict s t p).2) tr
       else acceptedTimes ((predict s t p).2) tr) := by
  simp only [acceptedTimes, run, List.filter]
  split_ifs with h <;> simp_all

/-- Every accepted positive in a trace is at least one cooldown after the
timer value at the start of the trace. -/
theorem acceptedTimes_lb (tr : List (ℚ × Option BodyMetrics)) :
    ∀ s : DetectorState, 0 ≤ s.fallCooldown →
    ∀ u ∈ acceptedTimes s tr, s.lastFallTime + s.fallCooldown ≤ u := by
  induction tr with
  | nil => intro s _ u hu; simp at hu
  | cons head tail ih =>
    obtain ⟨t, p⟩ := head
    intro s hc u hu
    rw [acceptedTimes_cons] at hu
    have hc2 : 0 ≤ ((predict s t p).2).fallCooldown := by
      rw [predict_fallCooldown]; exact hc
    by_cases hacc : ((predict s t p).1).1 = true
    · rw [if_pos hacc] at hu
      rcases List.mem_cons.mp hu with heq | hu2
      · rw [heq]
        have h1 := (predict_accept s t p hacc).1
        linarith
      · have h2 := ih ((predict s t p).2) hc2 u hu2
        rw [predict_fallCooldown] at h2
        have h3 := (predict_accept s t p hacc).2
        have h4 := (predict_accept s t p hacc).1
        rw [h3] at h2
        linarith
    · rw [if_neg hacc] at hu
      have h2 := ih ((predict s t p).2) hc2 u hu
      rw [predict_fallCooldown] at h2
      rw [predict_not_accept s t p (by simpa using hacc)] at h2
      exact h2

/-- Any two accepted positives in a trace are at least one cooldown
apart. -/
theorem acceptedTimes_pairwise (tr : List (ℚ × Option BodyMetrics)) :
    ∀ s : DetectorState, 0 ≤ s.fallCooldown →
    List.Pairwise (fun a b => s.fallCooldown ≤ b - a) (acceptedTimes s tr) := by
  induction tr with
  | nil => intro s _; simp
  | cons head tail ih =>
    obtain ⟨t, p⟩ := head
    intro s hc
    rw [acceptedTimes_cons]
    have hc2 : 0 ≤ ((predict s t p).2).fallCooldown := by
      rw [predict_fallCooldown]; exact hc
    have htail := ih ((predict s t p).2) hc2
    rw [predict_fallCooldown] at htail
    by_cases hacc : ((predict s t p).1).1 = true
    · rw [if_pos hacc]
      refine List.Pairwise.cons (fun u hu => ?_) htail
      have h2 := acceptedTimes_lb tail ((predict s t p).2) hc2 u hu
      rw [predict_fallCooldown, (predict_accept s t p hacc).2] at h2
      linarith
    · rw [if_neg hacc]
      exact htail

end FallDetector

/-- Calibrated state for the C2 witness: cooldown 5, timer at 0. -/
def sC2 : DetectorState :=
  { confidenceThreshold := 7/10
    positionHistory := []
    lastFallTime := 0
    fallCooldown := 5
    standingHeightRatio := some 2
    calibrationFrames := 30
    calibrationNeeded := 30 }

/-- Two qualifying fall-positive frames 2 seconds apart (cooldown is 5):
each satisfies the ratio-collapse and tilt indicators, for a raw confidence
of 0.7 at threshold 0.7. -/
def trC2 : List (ℚ × Option BodyMetrics) := [(100, some mC1), (102, some mC1)]

/-- C2: the cooldown gate.  A raw fall-positive frame arriving within
`fall_cooldown` of the last accepted positive is surfaced as `(False, 0.0)`
while its metrics still enter the history (the returned state is exactly the
history-extended one); every accepted positive resets the timer to its own
time; and along any trace the accepted positives are pairwise at least one
cooldown apart — the detector never surfaces two accepted positives less
than `fall_cooldown` seconds apart. -/
theorem cooldown_gate (s : DetectorState) (tr : List (ℚ × Option BodyMetrics))
    (hc : 0 ≤ s.fallCooldown) :
    (∀ (t : ℚ) (m : BodyMetrics), s.calibrationNeeded ≤ s.calibrationFrames →
      1/2 < m.visibility →
      (FallDetector.detectFall (FallDetector.pushState s t m) m).1 = true →
      t - s.lastFallTime < s.fallCooldown →
      FallDetector.predict s t (some m) =
        ((false, 0), FallDetector.pushState s t m)) ∧
    (∀ (t : ℚ) (p : Option BodyMetrics),
      ((FallDetector.predict s t p).1).1 = true →
      ((FallDetector.predict s t p).2).lastFallTime = t) ∧
    List.Pairwise (fun a b => s.fallCooldown ≤ b - a)
      (FallDetector.acceptedTimes s tr) := by
  refine ⟨?_, fun t p h => (FallDetector.predict_accept s t p h).2,
    FallDetector.acceptedTimes_pairwise tr s hc⟩
  intro t m hcal hvis hfall hcd
  simp only [FallDetector.predict]
  rw [if_pos hvis, if_neg (by simpa using not_lt.mpr hcal), if_pos]
  rw [Bool.and_eq_true, decide_eq_true_iff]
  exact ⟨hfall, by simpa using hcd⟩

/-- Witness for C2: on the concrete two-fall trace `trC2` the accepted
positives are pairwise at least 5 seconds apart. -/
theorem cooldown_gate_witness :
    (0 : ℚ) ≤ sC2.fallCooldown ∧
    List.Pairwise (fun a b => sC2.fallCooldown ≤ b - a)
      (FallDetector.acceptedTimes sC2 trC2) :=
  ⟨by norm_num [sC2], (cooldown_gate sC2 trC2 (by norm_num [sC2])).2.2⟩

namespace FallDetector

@[simp] theorem reset_lastFallTime (s : DetectorState) :
    (reset s).lastFallTime = s.lastFallTime := rfl

@[simp] theorem reset_fallCooldown (s : DetectorState) :
    (reset s).fallCooldown = s.fallCooldown := rfl

@[simp] theorem reset_confidenceThreshold (s : DetectorState) :
    (reset s).confidenceThreshold = s.confidenceThreshold := rfl

end FallDetector

/-- State for the C10 witness: an accepted positive was surfaced at time
100 (cooldown 5), after which `reset()` is called. -/
def sC10 : DetectorState :=
  { confidenceThreshold := 7/10
    positionHistory := []
    lastFallTime := 100
    fallCooldown := 5
    standingHeightRatio := some 2
    calibrationFrames := 30
    calibrationNeeded := 30 }

/-- Metrics for the C10 witness: raw-fall-positive without needing the
(cleared) standing-ratio estimate — horizontal aspect ratio (+0.3), low
tilt (+0.3) and head in the lower frame (+0.2) give confidence 0.8. -/
def mC10 : BodyMetrics :=
  { head_y := 7/10
    hip_y := 4/5
    shoulder_y := 3/5
    torso_height := 1/5
    head_to_hip := 1/2
    body_angle := 30
    aspect_ratio := 1/2
    center_x := 1/2
    center_y := 7/10
    visibility := 1 }

/-- C10: `reset()` clears the position history and the calibration state
(returning the detector to calibrating) but leaves the cooldown timer —
`last_fall_time` and `fall_cooldown` — unchanged; consequently a raw
fall-positive frame classified within the cooldown of a pre-reset accepted
positive is still surfaced as `(False, 0.0)` after `reset()`. -/
theorem reset_keeps_cooldown (s : DetectorState) :
    (FallDetector.reset s).lastFallTime = s.lastFallTime ∧
    (FallDetector.reset s).fallCooldown = s.fallCooldown ∧
    (FallDetector.reset s).positionHistory = [] ∧
    (FallDetector.reset s).calibrationFrames = 0 ∧
    (FallDetector.reset s).standingHeightRatio = none ∧
    ∀ (t : ℚ) (m : BodyMetrics),
      (FallDetector.detectFall
        (FallDetector.pushState (FallDetector.reset s) t m) m).1 = true →
      t - s.lastFallTime < s.fallCooldown →
      (FallDetector.predict (FallDetector.reset s) t (some m)).1 = (false, 0) := by
  refine ⟨rfl, rfl, rfl, rfl, rfl, fun t m hfall hcd => ?_⟩
  simp only [FallDetector.predict, apply_ite Prod.fst]
  split_ifs with hv hcal hsup <;>
    first
      | rfl
      | (exfalso
         rw [Bool.and_eq_true, decide_eq_true_iff] at hsup
         exact hsup ⟨hfall, by simpa using hcd⟩)

/-- Witness for C10: at 3 seconds after the pre-reset accepted positive
(cooldown 5), a concrete raw-positive frame is still suppressed after
`reset()`. -/
theorem reset_keeps_cooldown_witness :
    (FallDetector.detectFall
      (FallDetector.pushState (FallDetector.reset sC10) 103 mC10) mC10).1 = true ∧
    (103 : ℚ) - sC10.lastFallTime < sC10.fallCooldown ∧
    (FallDetector.predict (FallDetector.reset sC10) 103 (some mC10)).1 = (false, 0) := by
  have hind : FallDetector.fallIndicators
      (FallDetector.pushState (FallDetector.reset sC10) 103 mC10) mC10 =
      [3/10, 3/10, 1/5] := by
    norm_num [FallDetector.fallIndicators, FallDetector.ratioCollapse,
      FallDetector.downwardVelocity, FallDetector.pushState, pushBounded,
      FallDetector.reset, sC10, mC10]
  have hfall : (FallDetector.detectFall
      (FallDetector.pushState (FallDetector.reset sC10) 103 mC10) mC10).1 = true := by
    rw [FallDetector.detectFall, hind, if_neg (by simp)]
    norm_num [FallDetector.reset, sC10]
  exact ⟨hfall, by norm_num [sC10],
    (reset_keeps_cooldown sC10).2.2.2.2.2 103 mC10 hfall (by norm_num [sC10])⟩

/-! ## Clip assembly: `clip_saver.py` -/

/-- A video frame, abstracted to an identifier: the clip saver moves frames
around without inspecting their pixels (`frame.copy()` only). -/
abbrev Frame := ℕ

/-- The last `n` elements of a list. -/
def takeRight (n : ℕ) (xs : List α) : List α :=
  xs.drop (xs.length - n)

/-- The mutable state of a `ClipSaver` instance (`clip_saver.py`,
`__init__`).  `bufferFrames` is the ring-buffer capacity
`int(fps * buffer_seconds)` and `postFramesNeeded` is
`int(fps * post_seconds)`.  `savedClips` models the clip files written by
`_finalize_clip` (the `cv2.VideoWriter` call): one entry per finalized
clip, holding the output path and the frames written, in order. -/
structure ClipSaverState where
  bufferFrames : ℕ
  frameBuffer : List Frame
  isRecording : Bool
  recordingFrames : List Frame
  postFramesCount : ℕ
  postFramesNeeded : ℕ
  currentClipPath : Option String
  savedClips : List (Option String × List Frame)
deriving Repr, DecidableEq

namespace ClipSaver

/-- `ClipSaver.__init__`: capacities are `fps × seconds`; everything else
starts empty/idle. -/
def init (fps bufferSeconds postSeconds : ℕ) : ClipSaverState :=
  { bufferFrames := fps * bufferSeconds
    frameBuffer := []
    isRecording := false
    recordingFrames := []
    postFramesCount := 0
    postFramesNeeded := fps * postSeconds
    currentClipPath := none
    savedClips := [] }

/-- `ClipSaver._finalize_clip`: writes the recorded frames as a clip (when
there are any) and resets the recording state.  The pre-roll ring buffer is
not touched. -/
def finalizeClip (s : ClipSaverState) : ClipSaverState :=
  if s.recordingFrames = [] then { s with isRecording := false }
  else
    { s with savedClips := s.savedClips ++ [(s.currentClipPath, s.recordingFrames)]
             isRecording := false
             recordingFrames := []
             postFramesCount := 0 }

/-- `ClipSaver.add_frame`: while recording, the frame goes to the recording
sequence and the post-trigger counter advances (finalizing once it reaches
`post_frames_needed`); otherwise the frame goes to the pre-roll ring
buffer. -/
def addFrame (s : ClipSaverState) (f : Frame) : ClipSaverState :=
  if s.isRecording then
    let s1 := { s with recordingFrames := s.recordingFrames ++ [f]
                       postFramesCount := s.postFramesCount + 1 }
    if s1.postFramesNeeded ≤ s1.postFramesCount then finalizeClip s1 else s1
  else
    { s with frameBuffer := pushBounded s.bufferFrames s.frameBuffer f }

/-- `ClipSaver.trigger_save`: a no-op returning `None` while already
recording; otherwise snapshots the ring buffer as the head of a new
recording and stores the generated output path.  The path is derived from
wall-clock time in the source and is passed in here. -/
def triggerSave (s : ClipSaverState) (path : String) :
    Option String × ClipSaverState :=
  if s.isRecording then (none, s)
  else
    (some path,
     { s with isRecording := true
              postFramesCount := 0
              recordingFrames := s.frameBuffer
              currentClipPath := some path })

/-- Feeding a sequence of frames to `add_frame`, in order. -/
def addFrames (s : ClipSaverState) (fs : List Frame) : ClipSaverState :=
  fs.foldl addFrame s

/-- `ClipSaver.force_save`: finalize a non-empty in-progress recording. -/
def forceSave (s : ClipSaverState) : ClipSaverState :=
  if s.isRecording = true ∧ ¬ s.recordingFrames = [] then finalizeClip s
  else s

@[simp] theorem finalizeClip_frameBuffer (s : ClipSaverState) :
    (finalizeClip s).frameBuffer = s.frameBuffer := by
  unfold finalizeClip
  split_ifs <;> rfl

@[simp] theorem finalizeClip_bufferFrames (s : ClipSaverState) :
    (finalizeClip s).bufferFrames = s.bufferFrames := by
  unfold finalizeClip
  split_ifs <;> rfl

theorem pushBounded_eq_rtake (cap : ℕ) (xs : List α) (x : α) :
    pushBounded cap xs x = (xs ++ [x]).rtake cap := rfl

theorem rtake_of_length_le {n : ℕ} {xs : List α} (h : xs.length ≤ n) :
    xs.rtake n = xs := by
  simp [List.rtake, Nat.sub_eq_zero_of_le h]

theorem length_rtake_le (n : ℕ) (xs : List α) : (xs.rtake n).length ≤ n := by
  simp only [List.rtake, List.length_drop]
  omega

/-- Re-taking the last `n` elements after appending commutes with having
already restricted the prefix to its last `n` elements. -/
theorem rtake_append_rtake (n : ℕ) (xs ys : List α) :
    ((xs.rtake n) ++ ys).rtake n = (xs ++ ys).rtake n := by
  simp only [List.rtake_eq_reverse_take_reverse, List.reverse_append,
    List.reverse_reverse]
  rw [List.take_append_eq_append_take, List.take_append_eq_append_take,
    List.take_take]
  congr 2
  simp [Nat.min_eq_left (Nat.sub_le n ys.reverse.length)]

end ClipSaver

/-- Idle clip-saver state for the C6 witness: a recording is in progress
with one pre-roll frame and two recorded frames. -/
def sC6 : ClipSaverState :=
  { bufferFrames := 2
    frameBuffer := [1]
    isRecording := true
    recordingFrames := [1, 2]
    postFramesCount := 1
    postFramesNeeded := 5
    currentClipPath := some ("fall_a.mp4")
    savedClips := [] }

/-- C6: `trigger_save` while already recording returns `None` and leaves
the whole state — the in-progress recording's frame sequence, post-trigger
counter and output path included — unchanged, so at most one recording is
ever active. -/
theorem trigger_noop_when_recording (s : ClipSaverState) (path : String)
    (h : s.isRecording = true) :
    ClipSaver.triggerSave s path = (none, s) := by
  rw [ClipSaver.triggerSave, if_pos h]

/-- Witness for C6 at the concrete recording state `sC6`. -/
theorem trigger_noop_when_recording_witness :
    sC6.isRecording = true ∧
    ClipSaver.triggerSave sC6 ("fall_b.mp4") = (none, sC6) :=
  ⟨rfl, trigger_noop_when_recording sC6 ("fall_b.mp4") rfl⟩

/-- Idle clip-saver state for the C5 counterexample: capacity 2, nothing
buffered yet. -/
def sC5 : ClipSaverState :=
  { bufferFrames := 2
    frameBuffer := []
    isRecording := false
    recordingFrames := []
    postFramesCount := 0
    postFramesNeeded := 5
    currentClipPath := none
    savedClips := [] }

/-- C5 counterexample: feed frame 1 while idle, trigger, then feed frame 2
while the recording is in progress.  The ring buffer (capacity 2) still
holds only `[1]` — not the most recent two frames `[1, 2]` that the claim
("fed every frame regardless of recording state") requires: the frame that
arrived during recording never reaches the ring buffer. -/
theorem buffer_skips_recording_frames :
    (ClipSaver.addFrame
      ((ClipSaver.triggerSave (ClipSaver.addFrame sC5 1) ("fall_c.mp4")).2)
      2).frameBuffer = [1] ∧
    ¬ (ClipSaver.addFrame
      ((ClipSaver.triggerSave (ClipSaver.addFrame sC5 1) ("fall_c.mp4")).2)
      2).frameBuffer = [1, 2] := by
  constructor
  · rfl
  · decide

/-- C5 amended: the pre-roll ring buffer is fed only by frames that arrive
while no recording is in progress — `add_frame` during a recording leaves it
unchanged — and after any sequence of idle-state `add_frame` calls it holds
the most recent `min(count, fps × pre-roll-seconds)` of those frames, its
size never exceeding the capacity `fps × pre-roll-seconds`. -/
theorem preroll_buffer_behavior :
    (∀ (s : ClipSaverState) (f : Frame), s.isRecording = true →
      (ClipSaver.addFrame s f).frameBuffer = s.frameBuffer) ∧
    (∀ (s : ClipSaverState) (fs : List Frame), s.isRecording = false →
      s.frameBuffer.length ≤ s.bufferFrames →
      (ClipSaver.addFrames s fs).frameBuffer =
        (s.frameBuffer ++ fs).rtake s.bufferFrames ∧
      (ClipSaver.addFrames s fs).frameBuffer.length ≤ s.bufferFrames) := by
  constructor
  · intro s f h
    rw [ClipSaver.addFrame, if_pos h]
    dsimp only
    split_ifs <;> simp
  · intro s fs
    induction fs generalizing s with
    | nil =>
      intro hrec hlen
      rw [List.append_nil]
      exact ⟨(ClipSaver.rtake_of_length_le hlen).symm, hlen⟩
    | cons f rest ih =>
      intro hrec hlen
      have hstep : ClipSaver.addFrames s (f :: rest) =
          ClipSaver.addFrames (ClipSaver.addFrame s f) rest := rfl
      have hbuf : ClipSaver.addFrame s f =
          { s with frameBuffer := pushBounded s.bufferFrames s.frameBuffer f } := by
        rw [ClipSaver.addFrame, if_neg (by simp [hrec])]
      have hlen2 : (pushBounded s.bufferFrames s.frameBuffer f).length ≤
          s.bufferFrames := by
        rw [ClipSaver.pushBounded_eq_rtake]
        exact ClipSaver.length_rtake_le _ _
      obtain ⟨ih1, ih2⟩ := ih
        { s with frameBuffer := pushBounded s.bufferFrames s.frameBuffer f }
        hrec hlen2
      rw [hstep, hbuf]
      refine ⟨?_, ih2⟩
      rw [ih1]
      show ((pushBounded s.bufferFrames s.frameBuffer f) ++ rest).rtake
          s.bufferFrames = _
      rw [ClipSaver.pushBounded_eq_rtake, ClipSaver.rtake_append_rtake,
        List.append_assoc]
      rfl

/-- Witness for C5's amended claim: capacity 2 (fps 2 × 1 s), three idle
frames fed, the buffer holds the two most recent. -/
theorem preroll_buffer_behavior_witness :
    (ClipSaver.init 2 1 1).isRecording = false ∧
    (ClipSaver.init 2 1 1).frameBuffer.length ≤ (ClipSaver.init 2 1 1).bufferFrames ∧
    (ClipSaver.addFrames (ClipSaver.init 2 1 1) [1, 2, 3]).frameBuffer = [2, 3] := by
  refine ⟨rfl, by simp [ClipSaver.init], ?_⟩
  have h := (preroll_buffer_behavior.2 (ClipSaver.init 2 1 1) [1, 2, 3] rfl
    (by simp [ClipSaver.init])).1
  rw [h]
  decide

/-- While a recording is in progress and short of `post_frames_needed` by
exactly the length of the remaining frames, feeding them completes the
recording: the finalized clip is the recorded head followed by those frames
in order. -/
theorem addFrames_finalizes (fs : List Frame) :
    ∀ s : ClipSaverState, s.isRecording = true →
    s.postFramesCount + fs.length = s.postFramesNeeded →
    1 ≤ fs.length →
    (ClipSaver.addFrames s fs).savedClips =
      s.savedClips ++ [(s.currentClipPath, s.recordingFrames ++ fs)] ∧
    (ClipSaver.addFrames s fs).isRecording = false := by
  induction fs with
  | nil => intro s _ _ h; exact absurd h (by simp)
  | cons f rest ih =>
    intro s hrec hcnt _
    have hstep : ClipSaver.addFrames s (f :: rest) =
        ClipSaver.addFrames (ClipSaver.addFrame s f) rest := rfl
    rw [hstep]
    cases rest with
    | nil =>
      have hdone : s.postFramesNeeded ≤ s.postFramesCount + 1 := by
        simp at hcnt
        omega
      have haf : ClipSaver.addFrame s f =
          ClipSaver.finalizeClip
            { s with recordingFrames := s.recordingFrames ++ [f]
                     postFramesCount := s.postFramesCount + 1 } := by
        rw [ClipSaver.addFrame, if_pos hrec, if_pos hdone]
      rw [haf, ClipSaver.finalizeClip, if_neg (by simp)]
      exact ⟨rfl, rfl⟩
    | cons r rs =>
      have hnot : ¬ s.postFramesNeeded ≤ s.postFramesCount + 1 := by
        simp at hcnt
        omega
      have haf : ClipSaver.addFrame s f =
          { s with recordingFrames := s.recordingFrames ++ [f]
                   postFramesCount := s.postFramesCount + 1 } := by
        rw [ClipSaver.addFrame, if_pos hrec, if_neg hnot]
      rw [haf]
      have hres := ih { s with recordingFrames := s.recordingFrames ++ [f]
                               postFramesCount := s.postFramesCount + 1 }
        hrec (by simp at hcnt ⊢; omega) (by simp)
      simpa [List.append_assoc] using hres

/-- C4: from an idle saver with `B` frames in the pre-roll buffer, a
trigger followed by exactly `post_frames_needed = fps × post-roll-seconds`
further frames finalizes one clip containing exactly the `B` buffered
frames followed by the post-trigger frames, in arrival order. -/
theorem clip_roundtrip (s : ClipSaverState) (path : String) (ps : List Frame)
    (hrec : s.isRecording = false)
    (hn : ps.length = s.postFramesNeeded)
    (hpos : 1 ≤ s.postFramesNeeded) :
    (ClipSaver.addFrames ((ClipSaver.triggerSave s path).2) ps).savedClips =
      s.savedClips ++ [(some path, s.frameBuffer ++ ps)] ∧
    (ClipSaver.addFrames ((ClipSaver.triggerSave s path).2) ps).isRecording = false ∧
    (ClipSaver.triggerSave s path).1 = some path := by
  have htr : ClipSaver.triggerSave s path =
      (some path,
       { s with isRecording := true
                postFramesCount := 0
                recordingFrames := s.frameBuffer
                currentClipPath := some path }) := by
    rw [ClipSaver.triggerSave, if_neg (by simp [hrec])]
  rw [htr]
  have h := addFrames_finalizes ps
    { s with isRecording := true
             postFramesCount := 0
             recordingFrames := s.frameBuffer
             currentClipPath := some path }
    rfl (by simpa using hn) (by omega)
  exact ⟨h.1, h.2, rfl⟩

/-- Idle saver for the C4 witness: capacity 2, one frame already buffered,
`post_frames_needed = 2 (fps 2 × 1 s)`. -/
def sC4 : ClipSaverState := ClipSaver.addFrame (ClipSaver.init 2 1 1) 1

/-- Witness for C4: B = 1 buffered frame, P = 2 post-trigger frames, and
the finalized clip is `[1, 2, 3]`. -/
theorem clip_roundtrip_witness :
    sC4.isRecording = false ∧
    ([2, 3] : List Frame).length = sC4.postFramesNeeded ∧
    1 ≤ sC4.postFramesNeeded ∧
    (ClipSaver.addFrames ((ClipSaver.triggerSave sC4 ("fall_d.mp4")).2)
        [2, 3]).savedClips =
      sC4.savedClips ++ [(some ("fall_d.mp4"), sC4.frameBuffer ++ [2, 3])] :=
  ⟨rfl, by decide, by decide,
   (clip_roundtrip sC4 ("fall_d.mp4") [2, 3] rfl (by decide) (by decide)).1⟩

/-! ## Published fall-event messages: `mqtt_client.py` and
`aws_iot_client.py` -/

/-- The JSON field names occurring in the fall-event messages. -/
inductive JKey where
  | event
  | device_id
  | confidence
  | timestamp
  | timestamp_iso
  | clip_path
  | s3_url
deriving Repr, DecidableEq

/-- JSON values occurring in the fall-event messages. -/
inductive JVal where
  | jstr : String → JVal
  | jnum : ℚ → JVal
  | jnull : JVal
deriving Repr, DecidableEq

/-- Python `round(x, 3)`.  (CPython rounds half to even on the underlying
binary floats; no claim here depends on the tie-breaking, only on the
field being the 3-decimal rounding of the confidence.) -/
def round3 (q : ℚ) : ℚ := (round (q * 1000) : ℚ) / 1000

namespace MQTTPublisher

/-- The JSON object built by `MQTTPublisher.publish_fall_event`
(`mqtt_client.py`, lines 108–119), as an ordered key–value list.
`clip_path` is added only when a truthy (non-`None`, non-empty) clip path
is given; no `s3_url` field is ever added.  `timestampIso` is the
`time.strftime` of local time at the call and is passed in, as is the
resolved `timestamp` value. -/
def fallEventMessage (clientId : String) (confidence : ℚ)
    (clipPath : Option String) (ts : ℤ) (timestampIso : String) :
    List (JKey × JVal) :=
  [(JKey.event, JVal.jstr ("fall_detected")),
   (JKey.confidence, JVal.jnum (round3 confidence)),
   (JKey.timestamp, JVal.jnum (ts : ℚ)),
   (JKey.timestamp_iso, JVal.jstr timestampIso),
   (JKey.device_id, JVal.jstr clientId)] ++
  (match clipPath with
   | some p => if p = ("") then [] else [(JKey.clip_path, JVal.jstr p)]
   | none => [])

end MQTTPublisher

namespace AWSIoTClient

/-- The JSON object built by `AWSIoTClient.publish_fall_event`
(`aws_iot_client.py`, lines 137–145), as an ordered key–value list.
`clip_path` and `s3_url` are always present, `null` when absent; the S3
upload outcome `s3ClipUrl` is I/O and is passed in. -/
def fallEventMessage (clientId : String) (confidence : ℚ)
    (clipPath : Option String) (ts : ℤ) (timestampIso : String)
    (s3ClipUrl : Option String) : List (JKey × JVal) :=
  [(JKey.event, JVal.jstr ("fall_detected")),
   (JKey.device_id, JVal.jstr clientId),
   (JKey.confidence, JVal.jnum (round3 confidence)),
   (JKey.timestamp, JVal.jnum (ts : ℚ)),
   (JKey.timestamp_iso, JVal.jstr timestampIso),
   (JKey.clip_path, match clipPath with
     | some p => JVal.jstr p
     | none => JVal.jnull),
   (JKey.s3_url, match s3ClipUrl with
     | some u => JVal.jstr u
     | none => JVal.jnull)]

end AWSIoTClient

/-- C8 counterexample: the fall-event message published by the local MQTT
publisher for a clip-less detection carries neither an `s3_url` field nor a
`clip_path` field, so not every published fall-event message contains all
of the claimed fields. -/
theorem fall_event_missing_s3_url :
    ¬ JKey.s3_url ∈ (MQTTPublisher.fallEventMessage ("fall_detector_ec2")
        (17/20) none 1700000000 ("2023-11-14T22:13:20")).map Prod.fst ∧
    ¬ JKey.clip_path ∈ (MQTTPublisher.fallEventMessage ("fall_detector_ec2")
        (17/20) none 1700000000 ("2023-11-14T22:13:20")).map Prod.fst := by
  constructor <;> (intro h; simp [MQTTPublisher.fallEventMessage] at h)

/-- C8 amended: the AWS IoT Core (cloud channel) fall-event message
contains all of the fields event = "fall_detected", device_id, confidence
rounded to 3 decimals, timestamp, timestamp_iso, clip_path and s3_url
(null when no upload URL exists); the local MQTT channel's message instead
contains only event, confidence (3 decimals), timestamp, timestamp_iso and
device_id, plus clip_path exactly when a non-empty clip path was given, and
never an s3_url field. -/
theorem fall_event_message_fields (clientId timestampIso : String)
    (confidence : ℚ) (ts : ℤ) (clipPath s3Url : Option String) :
    (AWSIoTClient.fallEventMessage clientId confidence clipPath ts
        timestampIso s3Url).map Prod.fst =
      [JKey.event, JKey.device_id, JKey.confidence, JKey.timestamp,
       JKey.timestamp_iso, JKey.clip_path, JKey.s3_url] ∧
    (JKey.s3_url, match s3Url with
      | some u => JVal.jstr u
      | none => JVal.jnull) ∈
      AWSIoTClient.fallEventMessage clientId confidence clipPath ts
        timestampIso s3Url ∧
    ((MQTTPublisher.fallEventMessage clientId confidence clipPath ts
        timestampIso).map Prod.fst =
      [JKey.event, JKey.confidence, JKey.timestamp, JKey.timestamp_iso,
       JKey.device_id] ++
      (match clipPath with
       | some p => if p = ("") then [] else [JKey.clip_path]
       | none => [])) ∧
    ¬ JKey.s3_url ∈ (MQTTPublisher.fallEventMessage clientId confidence
        clipPath ts timestampIso).map Prod.fst := by
  refine ⟨rfl, by simp [AWSIoTClient.fallEventMessage], ?_, ?_⟩
  · cases clipPath with
    | none => rfl
    | some p =>
      by_cases hp : p = ("") <;> simp [MQTTPublisher.fallEventMessage, hp]
  · cases clipPath with
    | none => simp [MQTTPublisher.fallEventMessage]
    | some p =>
      by_cases hp : p = ("") <;>
        (intro h; simp [MQTTPublisher.fallEventMessage, hp] at h)

/-! ## Frame-source liveness: `mqtt_video_receiver.py` and
`run_camera_ec2.py` -/

namespace MQTTVideoReceiver

/-- `MQTTVideoReceiver.is_receiving` (`mqtt_video_receiver.py`, lines
245–249): `False` when no frame ever arrived, otherwise whether the last
frame is younger than 5 seconds. -/
def isReceiving (lastFrameTime : Option ℚ) (now : ℚ) : Bool :=
  match lastFrameTime with
  | none => false
  | some t => decide (now - t < 5)

end MQTTVideoReceiver

namespace LocalCamera

/-- `LocalCamera.is_receiving` (`run_camera_ec2.py`, lines 101–103): the
argument is the state of `self.cap` — `none` before `connect`, otherwise
whether the capture device reports open.  Frame arrival times are not
consulted at all. -/
def isReceiving (cap : Option Bool) : Bool :=
  match cap with
  | none => false
  | some opened => opened

end LocalCamera

/-- The claim's reading of `isReceiving`, for comparison: true only if a
frame arrived and did so within the liveness window. -/
def isReceivingClaim (lastFrameTime : Option ℚ) (now window : ℚ) : Bool :=
  match lastFrameTime with
  | none => false
  | some t => decide (now - t ≤ window)

/-- The no-frame branch of the `detect_and_publish` loop
(`run_camera_ec2.py`, lines 250–262): a missing frame increments the
miss counter and a placeholder frame is emitted once more than 30
consecutive frames are missing; any real frame resets the counter. -/
def noFrameStep (noFrameCount : ℕ) (frame : Option Frame) : ℕ × Bool :=
  match frame with
  | none => (noFrameCount + 1, decide (30 < noFrameCount + 1))
  | some _ => (0, false)

/-- C9 counterexample: a local camera whose device is open but which has
never delivered a frame.  `LocalCamera.is_receiving` returns `True`, while
the claim — `isReceiving()` true only if a frame arrived within the
liveness window, false when no frame ever arrived — requires `False`
(the claim's own reading at no-frame-yet is `false` at any instant). -/
theorem local_is_receiving_ignores_liveness :
    LocalCamera.isReceiving (some true) = true ∧
    isReceivingClaim none 100 5 = false := ⟨rfl, rfl⟩

/-- C9 amended: the remote frame source's `is_receiving` is true only if a
frame arrived within the 5-second liveness window — false when no frame
ever arrived — while `LocalCamera.is_receiving` is true iff the capture
device is open, regardless of frame recency; the orchestration loop,
rather than consulting `is_receiving`, substitutes a synthesized
placeholder frame (without raising) once more than 30 consecutive frames
are missing, and resets its miss counter on any real frame. -/
theorem is_receiving_liveness (now t : ℚ) (cap : Option Bool) (n : ℕ)
    (f : Frame) :
    MQTTVideoReceiver.isReceiving none now = false ∧
    (MQTTVideoReceiver.isReceiving (some t) now = true ↔ now - t < 5) ∧
    (LocalCamera.isReceiving cap = true ↔ cap = some true) ∧
    ((noFrameStep n none).2 = true ↔ 30 < n + 1) ∧
    noFrameStep n (some f) = (0, false) := by
  refine ⟨rfl, by simp [MQTTVideoReceiver.isReceiving], ?_,
    by simp [noFrameStep], rfl⟩
  cases cap with
  | none => simp [LocalCamera.isReceiving]
  | some b => cases b <;> simp [LocalCamera.isReceiving]

end FallDetection
